import Mathlib

/-
  Verification of the voice-conversation engine of the ai-product-assistant
  repository, against its natural-language specification.

  Shallow embedding: the relevant TypeScript functions are translated into
  executable Lean definitions.  JavaScript numbers are modelled by exact
  rationals, timestamps by natural-number milliseconds, audio blobs by their
  chunk sizes, and the single-threaded callback semantics by pure state-step
  functions.
-/

namespace VoiceEngine

/-! ## SpeechDetector (frontend/src/utils/speechDetector.ts)

    The classifier is purely functional over extracted frame features.
    Each score function mirrors the source method of the same name. -/

/-- Frame features handed to the classifier (SpeechDetectionResult.features):
    spectral centroid and rolloff in Hz, 13 MFCC coefficients, zero-crossing
    rate and energy. -/
structure AudioFeatures where
  spectralCentroid : ℚ
  spectralRolloff : ℚ
  mfcc : List ℚ
  zcr : ℚ
  energy : ℚ
deriving DecidableEq

/-- SpeechDetector.normalizeSpectralCentroid: 0 below 500 Hz, 0.5 above
    3000 Hz, otherwise a peak of 1 at 1500 Hz with linear falloff.  The
    trailing return 0 of the source is unreachable and folded into the
    last branch. -/
def normalizeSpectralCentroid (centroid : ℚ) : ℚ :=
  if centroid < 500 then 0
  else if centroid > 3000 then 1/2
  else max 0 (1 - |centroid - 1500| / 1500)

/-- SpeechDetector.normalizeSpectralRolloff: 1 on [2000, 4000], linear ramps
    clamped at 0 outside; the trailing return 0.5 of the source is
    unreachable. -/
def normalizeSpectralRolloff (rolloff : ℚ) : ℚ :=
  if 2000 ≤ rolloff ∧ rolloff ≤ 4000 then 1
  else if rolloff < 2000 then max 0 (rolloff / 2000)
  else max 0 (1 - (rolloff - 4000) / 4000)

/-- SpeechDetector.calculateMFCCScore: blend of an energy score from c0 and a
    formant score from c1..c3, each capped at 1.  Missing coefficients read
    as 0, as with the source (mfcc[i] or 0). -/
def calculateMFCCScore (mfcc : List ℚ) : ℚ :=
  if mfcc.isEmpty then 0
  else
    let c0 := |mfcc.getD 0 0|
    let c1 := |mfcc.getD 1 0|
    let c2 := |mfcc.getD 2 0|
    let c3 := |mfcc.getD 3 0|
    let energyScore := min 1 (c0 / 8)
    let formantScore := min 1 ((c1 + c2 + c3) / 25)
    min 1 (energyScore * (1/2) + formantScore * (1/2))

/-- SpeechDetector.detectFormantsFromMFCC: mean magnitude of c1..c3 against
    the threshold 1.5; on success the score is min 1 (mean / 3). -/
def detectFormantsFromMFCC (mfcc : List ℚ) : ℚ :=
  if mfcc.length < 4 then 0
  else
    let c1 := |mfcc.getD 1 0|
    let c2 := |mfcc.getD 2 0|
    let c3 := |mfcc.getD 3 0|
    let formantMagnitude := (c1 + c2 + c3) / 3
    if formantMagnitude > 3/2 then min 1 (formantMagnitude / 3) else 0

/-- SpeechDetector.normalizeZCR: 1 on [1000, 3000], linear ramps clamped at 0
    outside; the trailing return 0.5 of the source is unreachable. -/
def normalizeZCR (zcr : ℚ) : ℚ :=
  if 1000 ≤ zcr ∧ zcr ≤ 3000 then 1
  else if zcr < 1000 then max 0 (zcr / 1000)
  else max 0 (1 - (zcr - 3000) / 3000)

/-- The weighted combination computed by SpeechDetector.detectSpeech:
    weights centroid 0.15, rolloff 0.10, mfcc 0.25, formant 0.30, zcr 0.10,
    energy 0.10, where the energy sub-score is the fixed bonus 0.1 gated on
    raw energy above 0.01. -/
def detectConfidence (f : AudioFeatures) : ℚ :=
  normalizeSpectralCentroid f.spectralCentroid * (15/100)
    + normalizeSpectralRolloff f.spectralRolloff * (10/100)
    + calculateMFCCScore f.mfcc * (25/100)
    + detectFormantsFromMFCC f.mfcc * (30/100)
    + normalizeZCR f.zcr * (10/100)
    + (if f.energy > 1/100 then (1 : ℚ)/10 else 0) * (10/100)

/-- Per-frame decision produced by SpeechDetector.detectSpeech. -/
structure SpeechDecision where
  isSpeech : Bool
  confidence : ℚ
  features : AudioFeatures
deriving DecidableEq

/-- SpeechDetector.getDefaultResult: no speech, zero confidence, empty
    features. -/
def getDefaultResult : SpeechDecision :=
  { isSpeech := false
    confidence := 0
    features :=
      { spectralCentroid := 0, spectralRolloff := 0, mfcc := [], zcr := 0, energy := 0 } }

/-- The analysed branch of SpeechDetector.detectSpeech: compute the weighted
    confidence and compare against the 0.5 threshold. -/
def classify (f : AudioFeatures) : SpeechDecision :=
  { isSpeech := decide ((1 : ℚ)/2 ≤ detectConfidence f)
    confidence := detectConfidence f
    features := f }

/-- SpeechDetector.detectSpeech when Meyda returns no feature vector: reuse
    the cached last result, else the default result; with features present,
    classify them. -/
def detectSpeech (lastResult : Option SpeechDecision) (features : Option AudioFeatures) :
    SpeechDecision :=
  match features with
  | none => lastResult.getD getDefaultResult
  | some f => classify f

/-- The fixed regression fixture of the spec: centroid 1500 Hz, rolloff
    3000 Hz, mfcc [10,5,5,5,0,...,0], zcr 2000, energy 0.05. -/
def regressionFixture : AudioFeatures :=
  { spectralCentroid := 1500
    spectralRolloff := 3000
    mfcc := [10, 5, 5, 5, 0, 0, 0, 0, 0, 0, 0, 0, 0]
    zcr := 2000
    energy := 5/100 }

/-- The all-zero feature vector: both spectral features, all 13 cepstral
    coefficients, zcr and energy equal to 0. -/
def zeroFeatures : AudioFeatures :=
  { spectralCentroid := 0
    spectralRolloff := 0
    mfcc := List.replicate 13 0
    zcr := 0
    energy := 0 }

/-! ## UtteranceRecorder (frontend/src/hooks/useAudioRecorder.ts)

    The per-frame silence-detection loop (checkSilence), the silence
    confirmation timer, the max-recording-time timer, the onstop finalizer
    and the stream-release guards.  Times are natural-number milliseconds;
    the source divides by 1000 and compares seconds, which is equivalent for
    the integral configurations used. -/

/-- Recorder configuration: minRecordingTime, silenceThreshold and
    maxRecordingTime of useAudioRecorder, in milliseconds. -/
structure RecorderConfig where
  minRecordingMs : ℕ
  silenceThresholdMs : ℕ
  maxRecordingMs : ℕ
deriving DecidableEq

/-- Mutable recording state: isRecordingRef, speechDetectedRef,
    stoppedByMaxTimeRef, startTimeRef, lastSpeechEndTimeRef, and whether the
    100 ms silence-confirmation timer (silenceTimerRef) is scheduled. -/
structure RecState where
  isRecording : Bool
  speechDetected : Bool
  stoppedByMaxTime : Bool
  startTime : ℕ
  lastSpeechEnd : ℕ
  silenceStopPending : Bool
deriving DecidableEq

/-- State right after startRecording succeeds at time t0: recording, no
    speech seen, not stopped by max time, no silence stop scheduled. -/
def initialRecState (t0 : ℕ) : RecState :=
  { isRecording := true
    speechDetected := false
    stoppedByMaxTime := false
    startTime := t0
    lastSpeechEnd := t0
    silenceStopPending := false }

/-- One invocation of the checkSilence per-frame callback.  frameIsSpeech is
    the frame classification (speechResult.isSpeech from the FFT detector, or
    the volume fallback exceeding the adaptive threshold).  A speech-positive
    frame refreshes lastSpeechEnd, marks speechDetected and clears any
    pending silence stop; then the callback returns early while the minimum
    recording time has not elapsed, returns early if no speech-positive frame
    has occurred yet, and otherwise schedules the 100 ms silence-stop
    confirmation once silence has persisted for the threshold. -/
def checkSilence (cfg : RecorderConfig) (now : ℕ) (frameIsSpeech : Bool)
    (s : RecState) : RecState :=
  if s.isRecording = false then s
  else
    let s1 :=
      if frameIsSpeech then
        { s with lastSpeechEnd := now, speechDetected := true, silenceStopPending := false }
      else s
    if now - s1.startTime < cfg.minRecordingMs then s1
    else if s1.speechDetected = false then s1
    else if cfg.silenceThresholdMs ≤ now - s1.lastSpeechEnd then
      { s1 with silenceStopPending := true }
    else s1

/-- The 100 ms silence-confirmation callback: stops the recording (clearing
    the max-time timer) only if it is still running and was scheduled; the
    stoppedByMaxTime tag is left untouched, so the stop reason is silence. -/
def silenceConfirmFire (s : RecState) : RecState :=
  if s.silenceStopPending && s.isRecording then
    { s with isRecording := false, silenceStopPending := false }
  else s

/-- The maxRecordingTime safety timer callback: if still recording, tag
    stoppedByMaxTimeRef and stop (stopRecording clears the silence timer). -/
def maxTimeFire (s : RecState) : RecState :=
  if s.isRecording then
    { s with stoppedByMaxTime := true, isRecording := false, silenceStopPending := false }
  else s

/-- Repeated requestAnimationFrame invocations of checkSilence over a list of
    (timestamp, frame classification) observations. -/
def runCheckSilence (cfg : RecorderConfig) : RecState → List (ℕ × Bool) → RecState
  | s, [] => s
  | s, fr :: rest => runCheckSilence cfg (checkSilence cfg fr.1 fr.2 s) rest

/-- The pair (hasSpeech, stoppedByMaxTime) that mediaRecorder.onstop hands to
    onRecordingComplete; stoppedByMaxTime = true is the stoppedReason=maxTime
    tag distinguishing a forced cutoff from a silence stop. -/
def recordingResult (s : RecState) : Bool × Bool :=
  (s.speechDetected, s.stoppedByMaxTime)

/-- Outcome of the mediaRecorder.onstop finalizer: either an error surfaced
    through onError, or onRecordingComplete invoked with the assembled blob
    size and the speech/max-time flags. -/
inductive OnStopOutcome where
  | recordingError (message : String)
  | completed (blobSize : ℕ) (hasSpeech : Bool) (stoppedByMaxTime : Bool)
deriving DecidableEq

/-- The mediaRecorder.onstop handler over the recorded chunk sizes: zero
    chunks surface the no-audio-data error, a zero-size assembled blob
    surfaces the empty-audio error, otherwise onRecordingComplete is called
    with the blob and the flags.  A blob size is the sum of its chunk
    sizes. -/
def handleRecorderStop (chunkSizes : List ℕ) (hasSpeech stoppedByMaxTime : Bool) :
    OnStopOutcome :=
  if chunkSizes.length = 0 then
    .recordingError "No audio data recorded. Please try again."
  else
    let blobSize := chunkSizes.sum
    if blobSize = 0 then
      .recordingError "Recorded audio is empty. Please try again."
    else
      .completed blobSize hasSpeech stoppedByMaxTime

/-- Whether the onstop outcome invoked the completion callback. -/
def isCompleted : OnStopOutcome → Bool
  | .completed _ _ _ => true
  | .recordingError _ => false

/-- Stream acquisition at the top of startRecording: a provided, active
    shared stream is used and flagged isSharedStreamRef = true; otherwise
    the recorder acquires a fresh stream via getUserMedia and the flag is
    false.  Streams are identified by numbers. -/
def acquireRecorderStream (sharedStream : Option ℕ) (streamActive : ℕ → Bool)
    (fresh : ℕ) : ℕ × Bool :=
  match sharedStream with
  | some sh => if streamActive sh then (sh, true) else (fresh, false)
  | none => (fresh, false)

/-- The guarded stream release appearing verbatim on the onstop empty-chunks,
    onstop empty-blob, onstop success, mediaRecorder.onerror, outer
    startRecording catch, and stopRecording catch paths: tracks are stopped
    only when a stream is held and it is not the shared one; the reference is
    dropped in every case.  Returns the new streamRef and whether this
    cleanup stopped the tracks of the held stream. -/
def releaseRecorderStream (streamRef : Option ℕ) (isSharedStream : Bool) :
    Option ℕ × Bool :=
  match streamRef, isSharedStream with
  | some _, false => (none, true)
  | _, _ => (none, false)

/-- A media stream as seen by the track-validation code in startRecording:
    number of audio tracks, number of enabled live audio tracks, and the
    active flag consulted when deciding to reuse a shared stream. -/
structure MediaStreamInfo where
  audioTracks : ℕ
  enabledLiveTracks : ℕ
  active : Bool
deriving DecidableEq

/-- The track-validation steps of startRecording after the recorder is
    created: with no audio tracks, or no enabled live tracks, the code stops
    the tracks of the in-use stream UNCONDITIONALLY
    (stream.getTracks().forEach(track => track.stop())) and throws.  Result:
    (error message if validation fails, whether the tracks of the in-use
    stream were stopped). -/
def startValidation (stream : MediaStreamInfo) : Option String × Bool :=
  if stream.audioTracks = 0 then
    (some "No audio tracks available in the stream", true)
  else if stream.enabledLiveTracks = 0 then
    (some "Audio tracks are not enabled or active", true)
  else (none, false)

/-- Composition of stream acquisition and start-time track validation:
    returns (recording used the shared stream, the SHARED stream tracks were
    stopped by the start path).  When the shared stream is active it is the
    in-use stream, so a validation failure stops the shared tracks; when the
    recorder acquired its own stream, validation failures only ever touch the
    recorder-owned stream. -/
def startRecordingTrackCleanup (sharedStream : Option MediaStreamInfo)
    (fresh : MediaStreamInfo) : Bool × Bool :=
  match sharedStream with
  | some sh => if sh.active then (true, (startValidation sh).2) else (false, false)
  | none => (false, false)

/-- A shared stream that is active but whose audio track is no longer
    enabled and live (for instance after the device was muted externally). -/
def sharedDeadTracksInfo : MediaStreamInfo :=
  { audioTracks := 1, enabledLiveTracks := 0, active := true }

/-- A healthy stream with one enabled live audio track. -/
def freshTracksInfo : MediaStreamInfo :=
  { audioTracks := 1, enabledLiveTracks := 1, active := true }

/-! ## ConversationStateMachine
    (frontend/src/hooks/useContinuousVoiceConversation.ts)

    The session refs, the debounced transitionTo, the conversation timeout,
    the stop-phrase detector and the transcription-complete handler.
    JavaScript is single threaded, so each callback runs atomically and is
    modelled as a pure state-step function; timers are recorded in the state
    together with their scheduled fire time and captured arguments. -/

/-- The four conversation phases. -/
inductive ConversationState where
  | idle
  | listening
  | processing
  | speaking
deriving DecidableEq

/-- Message roles of the onMessage events. -/
inductive Role where
  | user
  | assistant
deriving DecidableEq

/-- A message delivered through the onMessage callback. -/
structure ConvMsg where
  role : Role
  content : String
deriving DecidableEq

/-- The debounce window of transitionTo (STATE_TRANSITION_DEBOUNCE_MS). -/
def STATE_TRANSITION_DEBOUNCE_MS : ℕ := 50

/-- The conversation-level no-speech timeout (CONVERSATION_TIMEOUT_MS). -/
def CONVERSATION_TIMEOUT_MS : ℕ := 30000

/-- The fixed stop-keyword vocabulary (STOP_KEYWORDS). -/
def STOP_KEYWORDS : List String :=
  ["stop", "end", "end conversation", "goodbye", "bye", "exit", "quit",
   "finish", "done", "that\x27s all", "thank you", "thanks", "no more", "cancel"]

/-- JavaScript String.prototype.toLowerCase restricted to the ASCII
    transcripts and keywords in play, implemented character-wise. -/
def jsToLowerCase (s : String) : String := String.mk (s.data.map Char.toLower)

/-- JavaScript String.prototype.trim: whitespace stripped from both ends. -/
def jsTrim (s : String) : String :=
  String.mk
    (((s.data.dropWhile Char.isWhitespace).reverse.dropWhile Char.isWhitespace).reverse)

/-- The normalization applied to a transcript by containsStopKeyword:
    transcript.toLowerCase().trim(). -/
def jsNormalize (transcript : String) : String := jsTrim (jsToLowerCase transcript)

/-- The replace of containsStopKeyword: the punctuation characters period,
    comma, bang, question mark, semicolon and colon each become a space. -/
def stripPunctuation (s : String) : String :=
  String.mk (s.data.map fun c =>
    if c == '.' || c == ',' || c == '!' || c == '?' || c == ';' || c == ':' then ' ' else c)

/-- JavaScript split on a whitespace run followed by the length filter of
    the source: splitting at every whitespace character produces empty
    fragments inside runs, which the filter below removes, matching
    split on the regex backslash-s-plus composed with the
    positive-length filter. -/
def splitOnWhitespaceAux : List Char → List Char → List String
  | acc, [] => [String.mk acc.reverse]
  | acc, c :: cs =>
    if c.isWhitespace then String.mk acc.reverse :: splitOnWhitespaceAux [] cs
    else splitOnWhitespaceAux (c :: acc) cs

/-- Split a string at whitespace characters (fragments may be empty). -/
def splitOnWhitespace (s : String) : List String := splitOnWhitespaceAux [] s.data

/-- JavaScript regular-expression word characters (the class backslash-w):
    ASCII letters, digits and underscore. -/
def isWordChar (c : Char) : Bool := c.isAlphanum || c == '_'

/-- Match a keyword as a literal prefix, returning the remaining suffix. -/
def matchKeywordHere : List Char → List Char → Option (List Char)
  | [], rest => some rest
  | _ :: _, [] => none
  | k :: ks, c :: cs => if k == c then matchKeywordHere ks cs else none

/-- A word boundary follows: end of string or a non-word character. -/
def boundaryAfter : List Char → Bool
  | [] => true
  | c :: _ => !(isWordChar c)

/-- The keyword matches at this position with a word boundary after it. -/
def wholeWordAt (kw s : List Char) : Bool :=
  match matchKeywordHere kw s with
  | some rest => boundaryAfter rest
  | none => false

/-- The keyword matches somewhere after a non-word character. -/
def wholeWordAfter : List Char → List Char → Bool
  | _, [] => false
  | kw, c :: cs => (!(isWordChar c) && wholeWordAt kw cs) || wholeWordAfter kw cs

/-- The keywordRegex.test of containsStopKeyword: backslash-b keyword
    backslash-b tested against the normalized transcript.  Every entry of
    STOP_KEYWORDS begins and ends with a word character and contains no
    regex metacharacter needing escape beyond the apostrophe, so the
    boundary requirement is: the match starts at the beginning of the string
    or after a non-word character, and is followed by the end of the string
    or a non-word character. -/
def testWholeWord (kw s : String) : Bool :=
  wholeWordAt kw.data s.data || wholeWordAfter kw.data s.data

/-- containsStopKeyword: the transcript is lower-cased and trimmed, the
    punctuation characters period comma bang question semicolon colon are
    replaced by spaces, the result is split on whitespace dropping empty
    words; a stop keyword matches if it equals the whole normalized
    transcript, occurs among the words, or matches the whole-word regular
    expression against the normalized transcript. -/
def containsStopKeyword (transcript : String) : Bool :=
  let normalized := jsNormalize transcript
  let cleaned := stripPunctuation normalized
  let words := (splitOnWhitespace cleaned).filter fun w => w.length > 0
  STOP_KEYWORDS.any fun keyword =>
    normalized == keyword || words.contains keyword || testWholeWord keyword normalized

/-- The session state of the hook: sessionActiveRef, stateRef,
    pendingStateRef, the transitionTo debounce timer with its scheduled fire
    time and captured target, the conversation timeout with its fire time,
    conversationStartTimeRef, speechDetectedInConversationRef, isProcessing,
    ttsCanceledRef, ttsSpeakingRef, the list of messages emitted through
    onMessage so far, and the log of texts submitted to the TTS through
    speakRef.current (whose only call sites in the hook are the stream-end
    and done-event triggers of streamChatResponse). -/
structure ConvState where
  sessionActive : Bool
  state : ConversationState
  pendingState : Option ConversationState
  debounceTimer : Option (ℕ × ConversationState)
  conversationTimeout : Option ℕ
  conversationStartTime : Option ℕ
  speechDetectedInConversation : Bool
  isProcessing : Bool
  ttsCanceled : Bool
  ttsSpeaking : Bool
  messages : List ConvMsg
  ttsSpokenTexts : List String
deriving DecidableEq

/-- The TTS trigger of streamChatResponse (speakRef.current(fullResponse),
    fired once at the done event or at stream end): the only way any text is
    submitted for speech synthesis in the conversation hook. -/
def triggerTTS (text : String) (s : ConvState) : ConvState :=
  { s with ttsSpokenTexts := s.ttsSpokenTexts ++ [text] }

/-- transitionTo: a request for the current state returns immediately;
    otherwise the previous debounce timer is cleared (overwritten), the
    pending state is recorded and a new timer is scheduled 50 ms out,
    capturing the requested target. -/
def transitionTo (now : ℕ) (newState : ConversationState) (s : ConvState) : ConvState :=
  if s.state = newState then s
  else
    { s with pendingState := some newState
             debounceTimer := some (now + STATE_TRANSITION_DEBOUNCE_MS, newState) }

/-- The debounce timer callback with its captured target: the transition
    commits only if the pending state still equals the captured target and
    the session is still active; the timer reference is cleared in every
    case. -/
def debounceTimerFire (target : ConversationState) (s : ConvState) : ConvState :=
  if s.pendingState = some target ∧ s.sessionActive = true then
    { s with state := target, pendingState := none, debounceTimer := none }
  else { s with debounceTimer := none }

/-- The deactivation write sessionActiveRef.current = false performed by
    stopConversation, endConversationWithStop and
    endConversationWithTimeout. -/
def deactivateSession (s : ConvState) : ConvState := { s with sessionActive := false }

/-- The assistant farewell emitted by endConversationWithTimeout. -/
def timeoutFarewellMessage : ConvMsg :=
  { role := .assistant
    content := "I didn\x27t hear anything. Feel free to start a new conversation whenever you\x27re ready!" }

/-- The assistant farewell emitted by endConversationWithStop. -/
def stopFarewellMessage : ConvMsg :=
  { role := .assistant
    content := "Goodbye! Feel free to start a new conversation whenever you\x27re ready!" }

/-- endConversationWithTimeout: a no-op when the session is inactive;
    otherwise clears the conversation timeout, emits the farewell message,
    clears isProcessing, requests transitionTo(idle) — scheduling the 50 ms
    debounce timer — and only THEN clears sessionActive, the conversation
    start time and the speech flag. -/
def endConversationWithTimeout (now : ℕ) (s : ConvState) : ConvState :=
  if s.sessionActive = false then s
  else
    let s1 := { s with conversationTimeout := none }
    let s2 := { s1 with messages := s1.messages ++ [timeoutFarewellMessage] }
    let s3 := transitionTo now .idle { s2 with isProcessing := false }
    { s3 with sessionActive := false
              conversationStartTime := none
              speechDetectedInConversation := false }

/-- The conversation-timeout timer callback armed by startConversation and
    onSpeechEnd: runs endConversationWithTimeout only while the session is
    active and no speech has been confirmed. -/
def conversationTimeoutFire (now : ℕ) (s : ConvState) : ConvState :=
  if s.sessionActive && !s.speechDetectedInConversation then
    endConversationWithTimeout now s
  else s

/-- The naturalTTS.onSpeechStart callback: unless the TTS was cancelled, it
    assigns stateRef and currentState to speaking DIRECTLY — no transitionTo,
    no debounce window, no session-active check — clears isProcessing and
    marks ttsSpeakingRef. -/
def onSpeechStart (s : ConvState) : ConvState :=
  if s.ttsCanceled = false then
    { s with state := .speaking, isProcessing := false, ttsSpeaking := true }
  else s

/-- endConversationWithStop: a no-op when inactive; otherwise clears the
    conversation timeout, emits the goodbye farewell, clears isProcessing,
    requests transitionTo(idle), clears the session refs and cancels the
    TTS (cancelTTSImmediate sets ttsCanceledRef and clears
    ttsSpeakingRef). -/
def endConversationWithStop (now : ℕ) (s : ConvState) : ConvState :=
  if s.sessionActive = false then s
  else
    let s1 := { s with conversationTimeout := none }
    let s2 := { s1 with messages := s1.messages ++ [stopFarewellMessage] }
    let s3 := transitionTo now .idle { s2 with isProcessing := false }
    { s3 with sessionActive := false
              conversationStartTime := none
              speechDetectedInConversation := false
              ttsCanceled := true
              ttsSpeaking := false }

/-- The onTranscriptionComplete callback of useWhisperTranscription as wired
    by the conversation hook: nothing happens when the session is inactive;
    a transcript containing a stop keyword emits the user message and ends
    the conversation via endConversationWithStop without forwarding; any
    other transcript emits the user message and is forwarded to
    streamChatResponse.  The boolean reports whether the transcript was
    forwarded to the answer streamer. -/
def onTranscriptionComplete (now : ℕ) (s : ConvState) (transcript : String) :
    ConvState × Bool :=
  if s.sessionActive = false then (s, false)
  else if containsStopKeyword transcript then
    let s1 := { s with messages := s.messages ++ [ConvMsg.mk .user transcript] }
    (endConversationWithStop now s1, false)
  else
    let s1 := { s with messages := s.messages ++ [ConvMsg.mk .user transcript] }
    (s1, true)

/-- The session state right after startConversation succeeded at time t0 and
    the debounced listening transition committed: active, listening, no
    pending transition, conversation timeout armed for t0 + 30 s, no speech
    seen yet. -/
def listeningSession (t0 : ℕ) : ConvState :=
  { sessionActive := true
    state := .listening
    pendingState := none
    debounceTimer := none
    conversationTimeout := some (t0 + CONVERSATION_TIMEOUT_MS)
    conversationStartTime := some t0
    speechDetectedInConversation := false
    isProcessing := false
    ttsCanceled := false
    ttsSpeaking := false
    messages := []
    ttsSpokenTexts := [] }

/-! ## SpeechSynthesisPlayer
    (useNaturalTTS.speak in the hooks file and useAudioPlaybackManager,
    frontend/src/hooks/useAudioPlaybackManager.ts)

    Playback state of the whole page: how many HTML audio elements are
    playing, whether window.speechSynthesis is speaking, the manager
    currentAudioRef and its isPlaying flag.  JavaScript is single threaded,
    so each handler runs atomically between awaits and is modelled as an
    event step. -/

/-- The two playback kinds tracked by currentAudioRef. -/
inductive AudioKind where
  | htmlAudio
  | speechSynthesis
deriving DecidableEq

/-- Page-wide audio state. -/
structure AudioSystem where
  domPlaying : ℕ
  synthSpeaking : Bool
  current : Option AudioKind
  isPlaying : Bool
deriving DecidableEq

/-- Number of audio sources actively playing: playing HTML audio elements
    plus the speech-synthesis engine when speaking. -/
def activeSources (s : AudioSystem) : ℕ :=
  s.domPlaying + (if s.synthSpeaking then 1 else 0)

/-- stopAllGlobalAudio: pause every HTML audio element in the document and
    cancel all speech synthesis. -/
def stopAllGlobalAudio (s : AudioSystem) : AudioSystem :=
  { s with domPlaying := 0, synthSpeaking := false }

/-- The stop of useAudioPlaybackManager: stopAllGlobalAudio first, then
    stop the current instance of either kind (already silenced by the global
    stop), run its cleanup, clear currentAudioRef and isPlaying; with no
    current instance only the flag is cleared.  Both branches produce the
    same state here. -/
def stopPlayback (s : AudioSystem) : AudioSystem :=
  let s1 := stopAllGlobalAudio s
  { s1 with current := none, isPlaying := false }

/-- playAudioBlob reaching a successful audio.play(): it begins with
    stopAllGlobalAudio() and stop(), then creates the single new element,
    stores it in currentAudioRef and starts it — the only playing source. -/
def startHtmlAudioPlayback (s : AudioSystem) : AudioSystem :=
  let s1 := stopPlayback (stopAllGlobalAudio s)
  { s1 with domPlaying := 1, current := some AudioKind.htmlAudio, isPlaying := true }

/-- playBrowserTTS reaching speechSynthesis.speak: it begins with
    stopAllGlobalAudio() and stop(), then stores the single new utterance
    and speaks it. -/
def startBrowserTTSPlayback (s : AudioSystem) : AudioSystem :=
  let s1 := stopPlayback (stopAllGlobalAudio s)
  { s1 with synthSpeaking := true, current := some AudioKind.speechSynthesis
            isPlaying := true }

/-- Atomic playback events: an explicit stop (cancel, or the stop phase at
    the head of play), the start of either playback kind, and the natural
    end callbacks of either kind. -/
inductive AudioEvent where
  | stopRequest
  | startHtml
  | startSynth
  | htmlEnded
  | synthEnded
deriving DecidableEq

/-- One playback event applied to the page audio state.  The ended
    callbacks clear the finished source, currentAudioRef and the flag. -/
def audioStep (s : AudioSystem) : AudioEvent → AudioSystem
  | .stopRequest => stopPlayback s
  | .startHtml => startHtmlAudioPlayback s
  | .startSynth => startBrowserTTSPlayback s
  | .htmlEnded => { s with domPlaying := 0, current := none, isPlaying := false }
  | .synthEnded => { s with synthSpeaking := false, current := none, isPlaying := false }

/-- A sequence of playback events. -/
def audioRun (s : AudioSystem) : List AudioEvent → AudioSystem
  | [] => s
  | e :: es => audioRun (audioStep s e) es

/-- The bounded stop poll of speak and play: while the observation reports
    playing and under 500 ms were waited, sleep 50 ms and retry.  The fuel
    10 equals maxWaitTime / pollInterval, the exact maximal number of loop
    iterations, so it is not a truncation. -/
def pollWait (playing : ℕ → Bool) : ℕ → ℕ → ℕ
  | 0, waited => waited
  | fuel + 1, waited =>
    if playing waited ∧ waited < 500 then pollWait playing fuel (waited + 50)
    else waited

/-- The poll as started by speak and play: from zero waited with fuel for
    the full 500 ms window at 50 ms steps. -/
def playPollWait (playing : ℕ → Bool) : ℕ := pollWait playing 10 0

/-- useNaturalTTS.speak: when audio is playing, stop it, poll up to 500 ms
    in 50 ms steps for it to report stopped, and force another stop if the
    wait was exhausted; then play through the manager, preferring the
    natural path when enabled and healthy, else the browser path (each of
    which stops everything again before starting). -/
def naturalTTSSpeak (enabled healthy : Bool) (s : AudioSystem) : AudioSystem :=
  let s1 :=
    if s.isPlaying then
      let s2 := stopPlayback s
      let waited := playPollWait fun _ => s2.isPlaying
      if 500 ≤ waited then stopPlayback s2 else s2
    else s
  if enabled && healthy then startHtmlAudioPlayback s1 else startBrowserTTSPlayback s1

/-- The silent initial audio state. -/
def idleAudioSystem : AudioSystem :=
  { domPlaying := 0, synthSpeaking := false, current := none, isPlaying := false }

/-- A session that was deactivated while a response was being processed,
    with TTS not cancelled: the configuration under which the TTS
    onSpeechStart callback fires after deactivation. -/
def deactivatedProcessingSession : ConvState :=
  { sessionActive := false
    state := .processing
    pendingState := none
    debounceTimer := none
    conversationTimeout := none
    conversationStartTime := none
    speechDetectedInConversation := true
    isProcessing := true
    ttsCanceled := false
    ttsSpeaking := false
    messages := []
    ttsSpokenTexts := [] }

end VoiceEngine

namespace VoiceEngine

/-- Exact value of the weighted confidence on the regression fixture. -/
theorem detectConfidence_regressionFixture :
    detectConfidence regressionFixture = 86/100 := by
  norm_num [detectConfidence, regressionFixture, normalizeSpectralCentroid,
    normalizeSpectralRolloff, calculateMFCCScore, detectFormantsFromMFCC, normalizeZCR]

/-- The weighted confidence vanishes on the all-zero feature vector. -/
theorem detectConfidence_zeroFeatures : detectConfidence zeroFeatures = 0 := by
  norm_num [detectConfidence, zeroFeatures, normalizeSpectralCentroid,
    normalizeSpectralRolloff, calculateMFCCScore, detectFormantsFromMFCC, normalizeZCR,
    List.replicate]

/-- C8: for the fixed regression feature vector, the weighted confidence
    exceeds 0.5 (it equals 0.86), so the frame is classified as speech. -/
theorem c8_regression_fixture_is_speech :
    detectConfidence regressionFixture = 86/100 ∧
    (1 : ℚ)/2 < detectConfidence regressionFixture ∧
    (classify regressionFixture).isSpeech = true := by
  refine ⟨detectConfidence_regressionFixture, ?_, ?_⟩
  · rw [detectConfidence_regressionFixture]; norm_num
  · simp only [classify, decide_eq_true_eq, detectConfidence_regressionFixture]
    norm_num

/-- Each centroid sub-score lies in the unit interval. -/
theorem normalizeSpectralCentroid_mem (c : ℚ) :
    0 ≤ normalizeSpectralCentroid c ∧ normalizeSpectralCentroid c ≤ 1 := by
  unfold normalizeSpectralCentroid
  split_ifs with h1 h2
  · norm_num
  · norm_num
  · refine ⟨le_max_left 0 _, max_le (by norm_num) ?_⟩
    have h : (0 : ℚ) ≤ |c - 1500| / 1500 := div_nonneg (abs_nonneg _) (by norm_num)
    linarith

/-- Each rolloff sub-score lies in the unit interval. -/
theorem normalizeSpectralRolloff_mem (r : ℚ) :
    0 ≤ normalizeSpectralRolloff r ∧ normalizeSpectralRolloff r ≤ 1 := by
  unfold normalizeSpectralRolloff
  split_ifs with h1 h2
  · norm_num
  · refine ⟨le_max_left 0 _, max_le (by norm_num) ?_⟩
    rw [div_le_one (by norm_num)]
    linarith
  · push_neg at h2
    have h4 : (4000 : ℚ) < r := not_le.mp fun hle => h1 ⟨h2, hle⟩
    refine ⟨le_max_left 0 _, max_le (by norm_num) ?_⟩
    have h : (0 : ℚ) ≤ (r - 4000) / 4000 := div_nonneg (by linarith) (by norm_num)
    linarith

/-- Each zero-crossing-rate sub-score lies in the unit interval. -/
theorem normalizeZCR_mem (z : ℚ) : 0 ≤ normalizeZCR z ∧ normalizeZCR z ≤ 1 := by
  unfold normalizeZCR
  split_ifs with h1 h2
  · norm_num
  · refine ⟨le_max_left 0 _, max_le (by norm_num) ?_⟩
    rw [div_le_one (by norm_num)]
    linarith
  · push_neg at h2
    have h4 : (3000 : ℚ) < z := not_le.mp fun hle => h1 ⟨h2, hle⟩
    refine ⟨le_max_left 0 _, max_le (by norm_num) ?_⟩
    have h : (0 : ℚ) ≤ (z - 3000) / 3000 := div_nonneg (by linarith) (by norm_num)
    linarith

/-- The cepstral score lies in the unit interval. -/
theorem calculateMFCCScore_mem (m : List ℚ) :
    0 ≤ calculateMFCCScore m ∧ calculateMFCCScore m ≤ 1 := by
  unfold calculateMFCCScore
  split_ifs with h1
  · norm_num
  · dsimp only
    have he : (0 : ℚ) ≤ min 1 (|m.getD 0 0| / 8) :=
      le_min (by norm_num) (div_nonneg (abs_nonneg _) (by norm_num))
    have hf : (0 : ℚ) ≤ min 1 ((|m.getD 1 0| + |m.getD 2 0| + |m.getD 3 0|) / 25) := by
      refine le_min (by norm_num) (div_nonneg ?_ (by norm_num))
      have := abs_nonneg (m.getD 1 0)
      have := abs_nonneg (m.getD 2 0)
      have := abs_nonneg (m.getD 3 0)
      linarith
    refine ⟨le_min (by norm_num) ?_, min_le_left _ _⟩
    have h2 : (0 : ℚ) ≤ min 1 (|m.getD 0 0| / 8) * (1/2) := mul_nonneg he (by norm_num)
    have h3 : (0 : ℚ) ≤ min 1 ((|m.getD 1 0| + |m.getD 2 0| + |m.getD 3 0|) / 25) * (1/2) :=
      mul_nonneg hf (by norm_num)
    linarith

/-- The formant-presence score lies in the unit interval. -/
theorem detectFormantsFromMFCC_mem (m : List ℚ) :
    0 ≤ detectFormantsFromMFCC m ∧ detectFormantsFromMFCC m ≤ 1 := by
  unfold detectFormantsFromMFCC
  split_ifs with h1
  · norm_num
  · dsimp only
    split_ifs with h2
    · refine ⟨le_min (by norm_num) ?_, min_le_left _ _⟩
      have ha := abs_nonneg (m.getD 1 0)
      have hb := abs_nonneg (m.getD 2 0)
      have hc := abs_nonneg (m.getD 3 0)
      exact div_nonneg (div_nonneg (by linarith) (by norm_num)) (by norm_num)
    · norm_num

/-- C10: for every feature input, the classifier confidence lies in
    [0, 0.91]: each normalized sub-score lies in [0, 1] and the energy term
    contributes at most 0.1 times 0.1, so the confidence never reaches 1 and
    is never negative. -/
theorem c10_confidence_bounds (f : AudioFeatures) :
    0 ≤ detectConfidence f ∧ detectConfidence f ≤ 91/100 := by
  obtain ⟨hc0, hc1⟩ := normalizeSpectralCentroid_mem f.spectralCentroid
  obtain ⟨hr0, hr1⟩ := normalizeSpectralRolloff_mem f.spectralRolloff
  obtain ⟨hm0, hm1⟩ := calculateMFCCScore_mem f.mfcc
  obtain ⟨hf0, hf1⟩ := detectFormantsFromMFCC_mem f.mfcc
  obtain ⟨hz0, hz1⟩ := normalizeZCR_mem f.zcr
  have he0 : (0 : ℚ) ≤ (if f.energy > 1/100 then (1 : ℚ)/10 else 0) := by
    split_ifs <;> norm_num
  have he1 : (if f.energy > 1/100 then (1 : ℚ)/10 else 0) ≤ 1/10 := by
    split_ifs <;> norm_num
  unfold detectConfidence
  constructor
  · have t1 := mul_nonneg hc0 (by norm_num : (0:ℚ) ≤ 15/100)
    have t2 := mul_nonneg hr0 (by norm_num : (0:ℚ) ≤ 10/100)
    have t3 := mul_nonneg hm0 (by norm_num : (0:ℚ) ≤ 25/100)
    have t4 := mul_nonneg hf0 (by norm_num : (0:ℚ) ≤ 30/100)
    have t5 := mul_nonneg hz0 (by norm_num : (0:ℚ) ≤ 10/100)
    have t6 := mul_nonneg he0 (by norm_num : (0:ℚ) ≤ 10/100)
    linarith
  · have t1 := mul_le_of_le_one_left (by norm_num : (0:ℚ) ≤ 15/100) hc1
    have t2 := mul_le_of_le_one_left (by norm_num : (0:ℚ) ≤ 10/100) hr1
    have t3 := mul_le_of_le_one_left (by norm_num : (0:ℚ) ≤ 25/100) hm1
    have t4 := mul_le_of_le_one_left (by norm_num : (0:ℚ) ≤ 30/100) hf1
    have t5 := mul_le_of_le_one_left (by norm_num : (0:ℚ) ≤ 10/100) hz1
    have t6 := mul_le_mul_of_nonneg_right he1 (by norm_num : (0:ℚ) ≤ 10/100)
    linarith

/-- C10 witness: the bounds evaluated at the concrete regression fixture. -/
theorem c10_confidence_bounds_witness :
    0 ≤ detectConfidence regressionFixture ∧
    detectConfidence regressionFixture ≤ 91/100 :=
  c10_confidence_bounds regressionFixture

/-- C9: the all-zero feature vector classifies as no-speech with confidence 0,
    and an absent (malformed or empty) feature vector with no cached prior
    decision yields the default result, likewise no-speech with
    confidence 0. -/
theorem c9_zero_and_absent_features_no_speech :
    (classify zeroFeatures).isSpeech = false ∧
    (classify zeroFeatures).confidence = 0 ∧
    detectSpeech none none = getDefaultResult ∧
    getDefaultResult.isSpeech = false ∧
    getDefaultResult.confidence = 0 := by
  refine ⟨?_, ?_, rfl, rfl, rfl⟩
  · simp only [classify, decide_eq_false_iff_not, detectConfidence_zeroFeatures]
    norm_num
  · simp only [classify, detectConfidence_zeroFeatures]

/-- A checkSilence invocation on a non-speech frame leaves the state of a
    recording that has seen no speech untouched. -/
theorem checkSilence_no_speech_frame (cfg : RecorderConfig) (now : ℕ) (s : RecState)
    (h : s.speechDetected = false) : checkSilence cfg now false s = s := by
  unfold checkSilence
  simp only [Bool.false_eq_true, if_false]
  split_ifs with h1 h2 <;> rfl

/-- Over any sequence of non-speech frames, the silence-detection loop never
    changes the state of a recording that has seen no speech. -/
theorem runCheckSilence_no_speech (cfg : RecorderConfig) :
    ∀ (frames : List (ℕ × Bool)) (s : RecState), s.speechDetected = false →
      (∀ fr ∈ frames, fr.2 = false) → runCheckSilence cfg s frames = s := by
  intro frames
  induction frames with
  | nil => intro s _ _; rfl
  | cons fr rest ih =>
    intro s h hf
    have hfr : fr.2 = false := hf fr (List.mem_cons_self fr rest)
    have hrest : ∀ g ∈ rest, g.2 = false := fun g hg => hf g (List.mem_cons_of_mem fr hg)
    have hstep : checkSilence cfg fr.1 fr.2 s = s := by
      rw [hfr]; exact checkSilence_no_speech_frame cfg fr.1 s h
    calc runCheckSilence cfg s (fr :: rest)
        = runCheckSilence cfg (checkSilence cfg fr.1 fr.2 s) rest := rfl
      _ = runCheckSilence cfg s rest := by rw [hstep]
      _ = s := ih s h hrest

/-- C3: a recording in which no frame was ever classified speech-positive is
    never stopped by the silence path: the silence confirmation is never
    scheduled and firing it is a no-op, the recording stays live until the
    max-time timer force-stops it, and the result then carries
    hasSpeech = false together with the stoppedByMaxTime tag. -/
theorem c3_zero_speech_stops_only_by_max_time (cfg : RecorderConfig) (t0 : ℕ)
    (frames : List (ℕ × Bool)) (h : ∀ fr ∈ frames, fr.2 = false) :
    runCheckSilence cfg (initialRecState t0) frames = initialRecState t0 ∧
    (runCheckSilence cfg (initialRecState t0) frames).silenceStopPending = false ∧
    silenceConfirmFire (runCheckSilence cfg (initialRecState t0) frames) =
      runCheckSilence cfg (initialRecState t0) frames ∧
    (runCheckSilence cfg (initialRecState t0) frames).isRecording = true ∧
    (maxTimeFire (runCheckSilence cfg (initialRecState t0) frames)).isRecording = false ∧
    recordingResult (maxTimeFire (runCheckSilence cfg (initialRecState t0) frames)) =
      (false, true) := by
  have hrun := runCheckSilence_no_speech cfg frames (initialRecState t0) rfl h
  rw [hrun]
  refine ⟨rfl, rfl, ?_, rfl, ?_, ?_⟩
  · simp [silenceConfirmFire, initialRecState]
  · simp [maxTimeFire, initialRecState]
  · simp [maxTimeFire, initialRecState, recordingResult]

/-- C3 witness: a concrete two-frame silent recording under the conversation
    configuration (0.5 s minimum, 2 s silence threshold, 60 s cap). -/
theorem c3_zero_speech_stops_only_by_max_time_witness :
    recordingResult (maxTimeFire
      (runCheckSilence ⟨500, 2000, 60000⟩ (initialRecState 0) [(100, false), (300, false)])) =
      (false, true) :=
  (c3_zero_speech_stops_only_by_max_time ⟨500, 2000, 60000⟩ 0 [(100, false), (300, false)]
    (by decide)).2.2.2.2.2

/-- C6: finalizing with zero captured chunks, or with an assembled blob of
    zero total size, surfaces an explicit recording error and never invokes
    the completion callback; whenever the completion callback does run, the
    blob it receives has positive size. -/
theorem c6_empty_recording_surfaces_error (chunkSizes : List ℕ)
    (hasSpeech stoppedByMaxTime : Bool) :
    (chunkSizes.length = 0 ∨ chunkSizes.sum = 0 →
      isCompleted (handleRecorderStop chunkSizes hasSpeech stoppedByMaxTime) = false ∧
      ∃ msg, handleRecorderStop chunkSizes hasSpeech stoppedByMaxTime =
        .recordingError msg) ∧
    (∀ n hs smt,
      handleRecorderStop chunkSizes hasSpeech stoppedByMaxTime = .completed n hs smt →
      0 < n) := by
  constructor
  · rintro (h | h)
    · simp [handleRecorderStop, h, isCompleted]
    · by_cases hl : chunkSizes.length = 0 <;>
        simp [handleRecorderStop, hl, h, isCompleted]
  · intro n hs smt heq
    unfold handleRecorderStop at heq
    dsimp only at heq
    split_ifs at heq with h1 h2
    injection heq with hn _ _
    subst hn
    exact Nat.pos_of_ne_zero h2

/-- C6 witness: the zero-chunk finalize surfaces the no-audio-data error. -/
theorem c6_empty_recording_surfaces_error_witness :
    isCompleted (handleRecorderStop [] true false) = false ∧
    ∃ msg, handleRecorderStop [] true false = .recordingError msg :=
  (c6_empty_recording_surfaces_error [] true false).1 (Or.inl rfl)

/-- C7 counterexample: a recording that reuses the active shared stream of
    the ConversationSession, whose audio track is however no longer enabled
    and live, takes the start-failure path of startRecording that stops the
    tracks of the in-use stream unconditionally — the recorder stops the
    tracks of the SHARED stream it did not acquire, contradicting the claim
    for the error-during-start path. -/
theorem c7_start_failure_stops_shared_tracks :
    startRecordingTrackCleanup (some sharedDeadTracksInfo) freshTracksInfo = (true, true) ∧
    acquireRecorderStream (some 7) (fun _ => true) 99 = (7, true) := by
  constructor
  · rfl
  · rfl

/-- C7 amended: on the guarded cleanup paths (the three onstop paths, the
    recorder error handler, the outer start catch and the stop catch) the
    recorder always drops its stream reference and stops tracks exactly when
    it holds a stream it acquired itself; an active shared stream is flagged
    as shared at acquisition; and a stream that passes track validation is
    never stopped by the start path.  The unconditional track stops of the
    inner start-failure paths are excluded (see the counterexample). -/
theorem c7_guarded_release_never_stops_shared (streamRef : Option ℕ) (shared : Bool)
    (info : MediaStreamInfo) (sh fresh : ℕ) (act : ℕ → Bool) :
    (releaseRecorderStream streamRef shared).1 = none ∧
    ((releaseRecorderStream streamRef shared).2 = true ↔
      streamRef ≠ none ∧ shared = false) ∧
    (act sh = true → acquireRecorderStream (some sh) act fresh = (sh, true)) ∧
    (0 < info.audioTracks → 0 < info.enabledLiveTracks →
      startValidation info = (none, false)) := by
  refine ⟨?_, ?_, ?_, ?_⟩
  · cases streamRef <;> cases shared <;> rfl
  · cases streamRef <;> cases shared <;> simp [releaseRecorderStream]
  · intro ha
    simp [acquireRecorderStream, ha]
  · intro h1 h2
    unfold startValidation
    rw [if_neg (by omega), if_neg (by omega)]

/-- C7 amended witness: a self-acquired stream is stopped on release, a
    shared-flagged one is not, and the healthy stream passes validation. -/
theorem c7_guarded_release_never_stops_shared_witness :
    (releaseRecorderStream (some 3) false).2 = true ∧
    (releaseRecorderStream (some 3) true).2 = false ∧
    acquireRecorderStream (some 7) (fun _ => true) 99 = (7, true) ∧
    startValidation freshTracksInfo = (none, false) := by
  have h := c7_guarded_release_never_stops_shared (some 3) false freshTracksInfo 7 99
    (fun _ => true)
  have h2 := c7_guarded_release_never_stops_shared (some 3) true freshTracksInfo 7 99
    (fun _ => true)
  refine ⟨h.2.1.mpr ⟨by simp, rfl⟩, ?_, h.2.2.1 rfl, h.2.2.2 (by decide) (by decide)⟩
  have := h2.2.1
  simp at this
  simpa using this

/-- The debounced transitionTo never changes the committed state or the
    message log; it only records the pending target and (re)schedules the
    timer. -/
theorem transitionTo_messages (now : ℕ) (st : ConversationState) (s : ConvState) :
    (transitionTo now st s).messages = s.messages := by
  unfold transitionTo
  split_ifs <;> rfl

/-- A transcript whose normalization equals a stop keyword makes
    containsStopKeyword true through its exact-utterance disjunct. -/
theorem containsStopKeyword_of_exact (transcript : String)
    (h : jsNormalize transcript ∈ STOP_KEYWORDS) :
    containsStopKeyword transcript = true := by
  unfold containsStopKeyword
  rw [List.any_eq_true]
  exact ⟨jsNormalize transcript, h, by simp⟩

/-- The debounced transitionTo leaves the TTS spoken-text log untouched. -/
theorem transitionTo_ttsSpokenTexts (now : ℕ) (st : ConversationState) (s : ConvState) :
    (transitionTo now st s).ttsSpokenTexts = s.ttsSpokenTexts := by
  unfold transitionTo
  split_ifs <;> rfl

/-- C4 counterexample: transcript "goodbye" in an active session.  The
    conversation ends, the transcript is not forwarded, and the farewell IS
    emitted — but only as an assistant onMessage event: the stop branch
    cancels the TTS (ttsCanceled true, ttsSpeaking false) and never submits
    the farewell to speech synthesis (the spoken-text log stays empty), so
    the farewell is not SPOKEN, refuting the claim as stated. -/
theorem c4_farewell_emitted_but_never_spoken :
    (onTranscriptionComplete 1000 (listeningSession 0) "goodbye").1.messages =
      [ConvMsg.mk .user "goodbye", stopFarewellMessage] ∧
    (onTranscriptionComplete 1000 (listeningSession 0) "goodbye").1.ttsSpokenTexts = [] ∧
    (onTranscriptionComplete 1000 (listeningSession 0) "goodbye").1.ttsCanceled = true ∧
    (onTranscriptionComplete 1000 (listeningSession 0) "goodbye").1.ttsSpeaking = false ∧
    (onTranscriptionComplete 1000 (listeningSession 0) "goodbye").2 = false := by
  decide

/-- C4 amended: with the session active, any transcript matched by the
    stop-phrase detector (exact utterance, punctuation-stripped word, or
    whole-word occurrence) is never forwarded to the answer streamer; the
    user message and exactly one goodbye farewell are emitted as onMessage
    events, the session ends with active = false, and the farewell is not
    spoken: the handler cancels the TTS and submits nothing to speech
    synthesis. -/
theorem c4_stop_phrase_silent_farewell_no_forwarding (now : ℕ) (s : ConvState)
    (transcript : String) (hact : s.sessionActive = true)
    (hstop : containsStopKeyword transcript = true) :
    (onTranscriptionComplete now s transcript).2 = false ∧
    (onTranscriptionComplete now s transcript).1.messages =
      s.messages ++ [ConvMsg.mk .user transcript, stopFarewellMessage] ∧
    (onTranscriptionComplete now s transcript).1.sessionActive = false ∧
    (onTranscriptionComplete now s transcript).1.ttsSpokenTexts = s.ttsSpokenTexts ∧
    (onTranscriptionComplete now s transcript).1.ttsCanceled = true ∧
    (onTranscriptionComplete now s transcript).1.ttsSpeaking = false := by
  have hmain : onTranscriptionComplete now s transcript =
      (endConversationWithStop now
        { s with messages := s.messages ++ [ConvMsg.mk .user transcript] }, false) := by
    unfold onTranscriptionComplete
    rw [if_neg (by simp [hact]), if_pos hstop]
  rw [hmain]
  refine ⟨rfl, ?_, ?_, ?_, ?_, ?_⟩
  · unfold endConversationWithStop
    rw [if_neg (by simp [hact])]
    dsimp only
    rw [transitionTo_messages]
    simp [List.append_assoc]
  · unfold endConversationWithStop
    rw [if_neg (by simp [hact])]
  · unfold endConversationWithStop
    rw [if_neg (by simp [hact])]
    dsimp only
    rw [transitionTo_ttsSpokenTexts]
  · unfold endConversationWithStop
    rw [if_neg (by simp [hact])]
  · unfold endConversationWithStop
    rw [if_neg (by simp [hact])]

/-- C4 amended witness: transcript "Goodbye!" in an active listening
    session — matched through the punctuation-stripped word path, not the
    exact-utterance path. -/
theorem c4_stop_phrase_silent_farewell_no_forwarding_witness :
    (onTranscriptionComplete 1000 (listeningSession 0) "Goodbye!").2 = false ∧
    (onTranscriptionComplete 1000 (listeningSession 0) "Goodbye!").1.messages =
      (listeningSession 0).messages ++
        [ConvMsg.mk .user "Goodbye!", stopFarewellMessage] ∧
    (onTranscriptionComplete 1000 (listeningSession 0) "Goodbye!").1.sessionActive =
      false ∧
    (onTranscriptionComplete 1000 (listeningSession 0) "Goodbye!").1.ttsSpokenTexts =
      (listeningSession 0).ttsSpokenTexts ∧
    (onTranscriptionComplete 1000 (listeningSession 0) "Goodbye!").1.ttsCanceled = true ∧
    (onTranscriptionComplete 1000 (listeningSession 0) "Goodbye!").1.ttsSpeaking = false :=
  c4_stop_phrase_silent_farewell_no_forwarding 1000 (listeningSession 0) "Goodbye!" rfl
    (by decide)

/-- C1 counterexample: the TTS onSpeechStart callback commits a state change
    to speaking immediately and unconditionally on the session flag — here
    the session has already been deactivated, yet the state change commits
    instantly with no debounce timer involved, contradicting the claim that
    every state change passes through the 50 ms window and that a transition
    is rejected after deactivation. -/
theorem c1_tts_callback_commits_despite_deactivation :
    deactivatedProcessingSession.sessionActive = false ∧
    (onSpeechStart deactivatedProcessingSession).state = ConversationState.speaking ∧
    (onSpeechStart deactivatedProcessingSession).state ≠
      deactivatedProcessingSession.state ∧
    (onSpeechStart deactivatedProcessingSession).debounceTimer = none := by
  decide

/-- C1 amended: transitions requested through transitionTo do satisfy the
    debounce discipline.  When two requests for distinct targets (both
    different from the current state) arrive within the window, neither
    commits synchronously, the later request supersedes the timer of the
    earlier one, firing the window commits exactly the later target, a stale
    fire of the earlier target commits nothing, and deactivating the session
    before the window elapses makes the pending transition commit
    nothing. -/
theorem c1_transitionTo_debounce_properties (s : ConvState) (t1 t2 : ℕ)
    (a b : ConversationState) (hact : s.sessionActive = true)
    (ha : s.state ≠ a) (hb : s.state ≠ b) (hab : a ≠ b)
    (hwin : t2 < t1 + STATE_TRANSITION_DEBOUNCE_MS) :
    (transitionTo t1 a s).state = s.state ∧
    (transitionTo t2 b (transitionTo t1 a s)).state = s.state ∧
    (transitionTo t2 b (transitionTo t1 a s)).debounceTimer =
      some (t2 + STATE_TRANSITION_DEBOUNCE_MS, b) ∧
    (debounceTimerFire b (transitionTo t2 b (transitionTo t1 a s))).state = b ∧
    (debounceTimerFire a (transitionTo t2 b (transitionTo t1 a s))).state = s.state ∧
    (debounceTimerFire b
      (deactivateSession (transitionTo t2 b (transitionTo t1 a s)))).state = s.state := by
  have h1 : transitionTo t1 a s =
      { s with pendingState := some a
               debounceTimer := some (t1 + STATE_TRANSITION_DEBOUNCE_MS, a) } := by
    unfold transitionTo
    rw [if_neg ha]
  have h2 : transitionTo t2 b (transitionTo t1 a s) =
      { s with pendingState := some b
               debounceTimer := some (t2 + STATE_TRANSITION_DEBOUNCE_MS, b) } := by
    rw [h1]
    unfold transitionTo
    split_ifs with hc
    · exact absurd hc hb
    · rfl
  refine ⟨by rw [h1], by rw [h2], by rw [h2], ?_, ?_, ?_⟩
  · rw [h2]
    unfold debounceTimerFire
    rw [if_pos ⟨rfl, hact⟩]
  · rw [h2]
    unfold debounceTimerFire
    rw [if_neg fun hc => hab (Option.some.inj hc.1).symm]
  · rw [h2]
    unfold deactivateSession debounceTimerFire
    rw [if_neg fun hc => by exact absurd hc.2 (by simp)]

/-- C1 amended witness: requests for processing then speaking 20 ms apart in
    an active listening session; only speaking commits, and not after
    deactivation. -/
theorem c1_transitionTo_debounce_properties_witness :
    (transitionTo 100 .processing (listeningSession 0)).state =
      (listeningSession 0).state ∧
    (transitionTo 120 .speaking (transitionTo 100 .processing (listeningSession 0))).state =
      (listeningSession 0).state ∧
    (transitionTo 120 .speaking
      (transitionTo 100 .processing (listeningSession 0))).debounceTimer =
      some (120 + STATE_TRANSITION_DEBOUNCE_MS, .speaking) ∧
    (debounceTimerFire .speaking (transitionTo 120 .speaking
      (transitionTo 100 .processing (listeningSession 0)))).state =
      ConversationState.speaking ∧
    (debounceTimerFire .processing (transitionTo 120 .speaking
      (transitionTo 100 .processing (listeningSession 0)))).state =
      (listeningSession 0).state ∧
    (debounceTimerFire .speaking (deactivateSession (transitionTo 120 .speaking
      (transitionTo 100 .processing (listeningSession 0))))).state =
      (listeningSession 0).state :=
  c1_transitionTo_debounce_properties (listeningSession 0) 100 120 .processing .speaking
    rfl (by decide) (by decide) (by decide) (by decide)

/-- C5: evaluation of the 30 s no-speech timeout at its concrete scenario.
    The farewell is emitted exactly once with the assistant role, the session
    ends with active = false, and a second fire is a no-op; but the
    debounced idle transition scheduled by endConversationWithTimeout is
    rejected when its window elapses, because the session was deactivated
    within the window, so the machine remains in listening instead of idle —
    the listening-to-idle transition of the claim never commits. -/
theorem c5_timeout_farewell_but_state_stays_listening :
    (conversationTimeoutFire 30000 (listeningSession 0)).messages =
      [timeoutFarewellMessage] ∧
    timeoutFarewellMessage.role = Role.assistant ∧
    (conversationTimeoutFire 30000 (listeningSession 0)).sessionActive = false ∧
    (conversationTimeoutFire 30000 (listeningSession 0)).debounceTimer =
      some (30050, ConversationState.idle) ∧
    (debounceTimerFire .idle (conversationTimeoutFire 30000 (listeningSession 0))).state =
      ConversationState.listening ∧
    ConversationState.listening ≠ ConversationState.idle ∧
    conversationTimeoutFire 40000
        (debounceTimerFire .idle (conversationTimeoutFire 30000 (listeningSession 0))) =
      debounceTimerFire .idle (conversationTimeoutFire 30000 (listeningSession 0)) := by
  decide

/-- Stopping playback silences every source. -/
theorem activeSources_stopPlayback (s : AudioSystem) :
    activeSources (stopPlayback s) = 0 := rfl

/-- Starting an HTML audio playback leaves exactly one active source. -/
theorem activeSources_startHtml (s : AudioSystem) :
    activeSources (startHtmlAudioPlayback s) = 1 := rfl

/-- Starting a browser TTS playback leaves exactly one active source. -/
theorem activeSources_startSynth (s : AudioSystem) :
    activeSources (startBrowserTTSPlayback s) = 1 := rfl

/-- Every playback event preserves the single-active-source bound. -/
theorem audioStep_active_le (s : AudioSystem) (e : AudioEvent)
    (h : activeSources s ≤ 1) : activeSources (audioStep s e) ≤ 1 := by
  cases e
  case stopRequest => simp [audioStep, activeSources_stopPlayback]
  case startHtml => simp [audioStep, activeSources_startHtml]
  case startSynth => simp [audioStep, activeSources_startSynth]
  case htmlEnded =>
    show activeSources { s with domPlaying := 0, current := none, isPlaying := false } ≤ 1
    simp only [activeSources]
    split_ifs <;> simp
  case synthEnded =>
    show activeSources
      { s with synthSpeaking := false, current := none, isPlaying := false } ≤ 1
    have h2 : activeSources
        { s with synthSpeaking := false, current := none, isPlaying := false }
        = s.domPlaying := by simp [activeSources]
    rw [h2]
    simp only [activeSources] at h
    split_ifs at h <;> omega

/-- The single-active-source bound is preserved along any event sequence. -/
theorem audioRun_active_le (es : List AudioEvent) :
    ∀ s : AudioSystem, activeSources s ≤ 1 → activeSources (audioRun s es) ≤ 1 := by
  induction es with
  | nil => intro s h; exact h
  | cons e rest ih => intro s h; exact ih (audioStep s e) (audioStep_active_le s e h)

/-- The stop poll never waits past its 500 ms window. -/
theorem pollWait_le (playing : ℕ → Bool) :
    ∀ (fuel w : ℕ), pollWait playing fuel w ≤ w + 50 * fuel := by
  intro fuel
  induction fuel with
  | zero => intro w; simp [pollWait]
  | succ n ih =>
    intro w
    unfold pollWait
    split_ifs with h
    · have := ih (w + 50)
      omega
    · omega

/-- The stop poll advances in 50 ms steps. -/
theorem pollWait_dvd (playing : ℕ → Bool) :
    ∀ (fuel w : ℕ), 50 ∣ w → 50 ∣ pollWait playing fuel w := by
  intro fuel
  induction fuel with
  | zero => intro w hw; simpa [pollWait] using hw
  | succ n ih =>
    intro w hw
    unfold pollWait
    split_ifs with h
    · exact ih (w + 50) (by omega)
    · exact hw

/-- C2: at most one audio source is ever active.  Playback starts silent;
    every playback event preserves the bound, along any event sequence; the
    stop poll of speak and play is bounded by 500 ms in 50 ms steps; a
    speak() always ends with exactly one active source because any prior
    playback is stopped (force-stopped when the wait is exhausted) before
    the new one starts; and in the queued-second-speak scenario the states
    are one active source, zero after the cancel, and exactly one once the
    queued speak starts — never two. -/
theorem c2_at_most_one_active_audio_source :
    activeSources idleAudioSystem = 0 ∧
    (∀ (s : AudioSystem) (e : AudioEvent),
      activeSources s ≤ 1 → activeSources (audioStep s e) ≤ 1) ∧
    (∀ (s : AudioSystem) (es : List AudioEvent),
      activeSources s ≤ 1 → activeSources (audioRun s es) ≤ 1) ∧
    (∀ playing : ℕ → Bool, playPollWait playing ≤ 500 ∧ 50 ∣ playPollWait playing) ∧
    (∀ (enabled healthy : Bool) (s : AudioSystem),
      activeSources (naturalTTSSpeak enabled healthy s) = 1) ∧
    activeSources (audioRun idleAudioSystem [AudioEvent.startHtml]) = 1 ∧
    activeSources (audioRun idleAudioSystem
      [AudioEvent.startHtml, AudioEvent.stopRequest]) = 0 ∧
    activeSources (audioRun idleAudioSystem
      [AudioEvent.startHtml, AudioEvent.stopRequest, AudioEvent.startSynth]) = 1 := by
  refine ⟨rfl, audioStep_active_le, fun s es => audioRun_active_le es s, ?_, ?_, rfl, rfl, rfl⟩
  · intro playing
    constructor
    · have := pollWait_le playing 10 0
      simpa [playPollWait] using this
    · exact pollWait_dvd playing 10 0 ⟨0, rfl⟩
  · intro enabled healthy s
    unfold naturalTTSSpeak
    cases h : enabled && healthy
    · simp only [h, Bool.false_eq_true, if_false]
      exact activeSources_startSynth _
    · simp only [h, if_true]
      exact activeSources_startHtml _

/-- C2 witness: the bound, the poll limit and the speak postcondition at
    concrete inputs, with every hypothesis discharged. -/
theorem c2_at_most_one_active_audio_source_witness :
    activeSources (audioStep idleAudioSystem AudioEvent.startSynth) ≤ 1 ∧
    activeSources (audioRun idleAudioSystem
      [AudioEvent.startHtml, AudioEvent.startSynth]) ≤ 1 ∧
    (playPollWait (fun _ => true) ≤ 500 ∧ 50 ∣ playPollWait (fun _ => true)) ∧
    activeSources (naturalTTSSpeak true true idleAudioSystem) = 1 := by
  have h := c2_at_most_one_active_audio_source
  exact ⟨h.2.1 idleAudioSystem AudioEvent.startSynth (by decide),
    h.2.2.1 idleAudioSystem [AudioEvent.startHtml, AudioEvent.startSynth] (by decide),
    h.2.2.2.1 (fun _ => true),
    h.2.2.2.2.1 true true idleAudioSystem⟩

end VoiceEngine
